import Mathlib

/-!
Shallow embedding of the Library-Management-Fast-Api repository
(src/app: models, crud, services, exception_handlers) and proofs of the
specification claims about it.

Rows of the three tables (`libraries`, `books`, `library_books`) are Lean
structures; a database session is a `DB` value holding the three row lists
plus the autoincrement counters.  Each CRUD/service function is translated
from the corresponding Python function, statement by statement; SQLAlchemy
`query(...).filter(...).first()` becomes `List.find?`, mutating the found
ORM object becomes `modifyFirst`, and `db.delete` of a row becomes
`List.eraseP` (with the declared `cascade` removing dependent mapping rows).
HTTP failure paths (`raise HTTPException(status_code, detail)`) become
`Except.error` carrying an `HTTPError`.
-/

namespace LibraryMgmt

/-- A row of the `libraries` table (src/app/models/library.py).
`count` is a plain SQL INTEGER, hence `Int`; `status` is the
library_status enum rendered as its string value. -/
structure Library where
  id : Nat
  name : String
  dept : Option String
  count : Int
  status : String
  deriving Repr, DecidableEq

/-- A row of the `books` table (src/app/models/book.py).
`price` is NUMERIC(10,2); we embed it as a rational. -/
structure Book where
  id : Nat
  title : String
  author : String
  category : Option String
  price : Rat
  isbn : String
  deriving Repr, DecidableEq

/-- A row of the `library_books` join table (src/app/models/library_book.py). -/
structure LibraryBook where
  id : Nat
  lib_id : Nat
  book_id : Nat
  status : String
  deriving Repr, DecidableEq

/-- The database state: the three tables plus the autoincrement counters
used when inserting new rows. -/
structure DB where
  libraries : List Library
  books : List Book
  library_books : List LibraryBook
  next_book_id : Nat
  next_mapping_id : Nat
  deriving Repr, DecidableEq

/-- The exception `HTTPException(status_code=..., detail=...)` as raised by the service
layer. -/
structure HTTPError where
  status_code : Nat
  detail : String
  deriving Repr, DecidableEq

/-- Payload of `POST /library-books` (schemas/library_book.py,
`LibraryBookCreate`); `status` is the mapping_status enum value. -/
structure LibraryBookCreate where
  lib_id : Nat
  book_id : Nat
  status : String
  deriving Repr, DecidableEq

/-- Payload of `PUT /library-books/...` (schemas/library_book.py,
`LibraryBookUpdate`): every field optional, `none` meaning unset. -/
structure LibraryBookUpdate where
  lib_id : Option Nat := none
  book_id : Option Nat := none
  status : Option String := none
  deriving Repr, DecidableEq

/-- Payload of `POST /books` (schemas/book.py, `BookCreate`). -/
structure BookCreate where
  title : String
  author : String
  category : Option String
  price : Rat
  isbn : String
  deriving Repr, DecidableEq

/-- Apply `f` to the first list element satisfying `p`, keeping the rest:
the effect of fetching a row with `.first()` and mutating the returned ORM
object in place. -/
def modifyFirst (p : α → Bool) (f : α → α) : List α → List α
  | [] => []
  | x :: xs => if p x then f x :: xs else x :: modifyFirst p f xs

/-- Case-insensitive containment test, the embedding of SQL
`ilike "%needle%"`. -/
def icontains (hay needle : String) : Bool :=
  decide ((needle.data.map Char.toLower) <:+: (hay.data.map Char.toLower))

/-- Case-sensitive containment test, the embedding of Python
`needle in hay`. -/
def containsSub (hay needle : String) : Bool :=
  decide (needle.data <:+: hay.data)

/-- Containment in the lowercased haystack, the embedding of Python
`needle in hay.lower()`. -/
def containsInLower (hay needle : String) : Bool :=
  decide (needle.data <:+: (hay.data.map Char.toLower))

/-- Python truthiness of an `Optional[str]`: `None` and the empty string
are falsy. -/
def strTruthy : Option String → Bool
  | none => false
  | some s => s ≠ ""

namespace LibraryCRUD

/-- Embedding of `LibraryCRUD.get_by_id` (crud/library-prudhvi.py): first row with the
given id. -/
def get_by_id (db : DB) (library_id : Nat) : Option Library :=
  db.libraries.find? (fun l => l.id == library_id)

/-- Embedding of `LibraryCRUD.increment_count` (crud/library-prudhvi.py): fetch the
library; if absent return None, otherwise add 1 to its count and commit. -/
def increment_count (db : DB) (library_id : Nat) : Option Library × DB :=
  match db.libraries.find? (fun l => l.id == library_id) with
  | none => (none, db)
  | some l =>
    let libs := modifyFirst (fun l => l.id == library_id)
      (fun l => { l with count := l.count + 1 }) db.libraries
    (some { l with count := l.count + 1 }, { db with libraries := libs })

/-- Embedding of `LibraryCRUD.decrement_count` (crud/library-prudhvi.py): fetch the
library; if absent return None; subtract 1 from its count only when the
count is positive, otherwise leave the row untouched. -/
def decrement_count (db : DB) (library_id : Nat) : Option Library × DB :=
  match db.libraries.find? (fun l => l.id == library_id) with
  | none => (none, db)
  | some l =>
    if 0 < l.count then
      let libs := modifyFirst (fun l => l.id == library_id)
        (fun l => { l with count := l.count - 1 }) db.libraries
      (some { l with count := l.count - 1 }, { db with libraries := libs })
    else
      (some l, db)

/-- Embedding of `LibraryCRUD.delete` (crud/library-prudhvi.py): delete the first row
with the given id.  The `Library.library_books` relationship declares
`cascade="all, delete-orphan"` (models/library.py) and the foreign key has
`ondelete="CASCADE"`, so the delete also removes every mapping row whose
lib_id references the deleted library. -/
def delete (db : DB) (library_id : Nat) : Bool × DB :=
  match db.libraries.find? (fun l => l.id == library_id) with
  | none => (false, db)
  | some _ =>
    (true,
     { db with
        libraries := db.libraries.eraseP (fun l => l.id == library_id),
        library_books := db.library_books.filter (fun m => !(m.lib_id == library_id)) })

end LibraryCRUD

namespace BookCRUD

/-- Embedding of `BookCRUD.get_by_id` (crud/book.py). -/
def get_by_id (db : DB) (book_id : Nat) : Option Book :=
  db.books.find? (fun b => b.id == book_id)

/-- Embedding of `BookCRUD.get_by_isbn` (crud/book.py). -/
def get_by_isbn (db : DB) (isbn : String) : Option Book :=
  db.books.find? (fun b => b.isbn == isbn)

/-- Embedding of `BookCRUD.create` (crud/book.py): insert and commit.  The `books.isbn`
column is declared UNIQUE (models/book.py), so committing a duplicate isbn
raises an IntegrityError, embedded as `Except.error` carrying the
stringified driver message. -/
def create (db : DB) (book : BookCreate) : Except String Book × DB :=
  if db.books.any (fun b => b.isbn == book.isbn) then
    (Except.error ("(pymysql.err.IntegrityError) (1062, Duplicate entry " ++
        book.isbn ++ " for key books.isbn)"), db)
  else
    let row : Book :=
      { id := db.next_book_id, title := book.title, author := book.author,
        category := book.category, price := book.price, isbn := book.isbn }
    (Except.ok row,
     { db with books := db.books ++ [row], next_book_id := db.next_book_id + 1 })

/-- Embedding of `BookCRUD.delete` (crud/book.py): delete the first row with the given
id; the `Book.library_books` relationship (models/book.py) declares
`cascade="all, delete-orphan"`, so mapping rows referencing the book are
removed as well. -/
def delete (db : DB) (book_id : Nat) : Bool × DB :=
  match db.books.find? (fun b => b.id == book_id) with
  | none => (false, db)
  | some _ =>
    (true,
     { db with
        books := db.books.eraseP (fun b => b.id == book_id),
        library_books := db.library_books.filter (fun m => !(m.book_id == book_id)) })

/-- The search filter of `BookCRUD.get_multi`: title, author or category
matches `ilike "%search%"` (a NULL category matches nothing). -/
def searchFilter (s : String) (b : Book) : Bool :=
  icontains b.title s || icontains b.author s ||
    (match b.category with
     | some c => icontains c s
     | none => false)

/-- The query-building half of `BookCRUD.get_multi` (crud/book.py): the
five optional filters applied in sequence to the books table (Python
truthiness guards the string filters, `is not None` the price bounds). -/
def buildQuery (db : DB) (search category author : Option String)
    (min_price max_price : Option Rat) : List Book :=
  let q := db.books
  let q := if strTruthy search then q.filter (searchFilter (search.getD "")) else q
  let q := if strTruthy category then
      q.filter (fun (b : Book) => b.category == some (category.getD "")) else q
  let q := if strTruthy author then
      q.filter (fun (b : Book) => icontains b.author (author.getD "")) else q
  let q := match min_price with
    | some m => q.filter (fun (b : Book) => m ≤ b.price)
    | none => q
  let q := match max_price with
    | some m => q.filter (fun (b : Book) => b.price ≤ m)
    | none => q
  q

/-- Embedding of `BookCRUD.get_multi` (crud/book.py): build the filtered
query, take its total count, then paginate the same query with
offset/limit. -/
def get_multi (db : DB) (skip limit : Nat)
    (search category author : Option String)
    (min_price max_price : Option Rat) : List Book × Nat :=
  let q := buildQuery db search category author min_price max_price
  let total := q.length
  ((q.drop skip).take limit, total)

end BookCRUD

namespace LibraryBookCRUD

/-- Embedding of `LibraryBookCRUD.get_by_id` (crud/library_book.py). -/
def get_by_id (db : DB) (mapping_id : Nat) : Option LibraryBook :=
  db.library_books.find? (fun m => m.id == mapping_id)

/-- Embedding of `LibraryBookCRUD.get_by_library_and_book` (crud/library_book.py). -/
def get_by_library_and_book (db : DB) (lib_id book_id : Nat) : Option LibraryBook :=
  db.library_books.find? (fun m => m.lib_id == lib_id && m.book_id == book_id)

/-- Embedding of `LibraryBookCRUD.create` (crud/library_book.py): insert a new mapping
row with the autoincremented id and commit. -/
def create (db : DB) (mapping : LibraryBookCreate) : LibraryBook × DB :=
  let row : LibraryBook :=
    { id := db.next_mapping_id, lib_id := mapping.lib_id,
      book_id := mapping.book_id, status := mapping.status }
  (row,
   { db with library_books := db.library_books ++ [row],
             next_mapping_id := db.next_mapping_id + 1 })

/-- Apply a `LibraryBookUpdate` to a mapping row: each field present in the
update payload overwrites the row field (`setattr` loop in
`LibraryBookCRUD.update`). -/
def applyUpdate (u : LibraryBookUpdate) (m : LibraryBook) : LibraryBook :=
  { m with
      lib_id := u.lib_id.getD m.lib_id,
      book_id := u.book_id.getD m.book_id,
      status := u.status.getD m.status }

/-- Embedding of `LibraryBookCRUD.update` (crud/library_book.py): fetch the row by id;
return None (leaving the database untouched) when absent, otherwise apply
the provided fields and commit. -/
def update (db : DB) (mapping_id : Nat) (u : LibraryBookUpdate) :
    Option LibraryBook × DB :=
  match db.library_books.find? (fun m => m.id == mapping_id) with
  | none => (none, db)
  | some m =>
    let rows := modifyFirst (fun m => m.id == mapping_id) (applyUpdate u) db.library_books
    (some (applyUpdate u m), { db with library_books := rows })

/-- Embedding of `LibraryBookCRUD.delete` (crud/library_book.py): fetch the row by id;
return False when absent, otherwise delete it and commit. -/
def delete (db : DB) (mapping_id : Nat) : Bool × DB :=
  match db.library_books.find? (fun m => m.id == mapping_id) with
  | none => (false, db)
  | some _ =>
    (true, { db with library_books :=
      db.library_books.eraseP (fun m => m.id == mapping_id) })

end LibraryBookCRUD

namespace LibraryBookService

/-- Embedding of `LibraryBookService.create_mapping`
(services/library_book_service.py): check the library exists (else 400
Library not found), check the book exists (else 400 Book not found), check
no mapping for the pair exists (else 409 Mapping already exists), then
insert the mapping and increment the library count; returns the new
mapping id with the success message. -/
def create_mapping (db : DB) (mapping_data : LibraryBookCreate) :
    Except HTTPError (Nat × String) × DB :=
  match LibraryCRUD.get_by_id db mapping_data.lib_id with
  | none => (Except.error ⟨400, "Library not found"⟩, db)
  | some _ =>
    match BookCRUD.get_by_id db mapping_data.book_id with
    | none => (Except.error ⟨400, "Book not found"⟩, db)
    | some _ =>
      match LibraryBookCRUD.get_by_library_and_book db
          mapping_data.lib_id mapping_data.book_id with
      | some _ => (Except.error ⟨409, "Mapping already exists"⟩, db)
      | none =>
        let created := LibraryBookCRUD.create db mapping_data
        let incremented := LibraryCRUD.increment_count created.2 mapping_data.lib_id
        (Except.ok (created.1.id, "Book linked to library successfully"), incremented.2)

/-- Embedding of `LibraryBookService.update_mapping`
(services/library_book_service.py): delegate to the CRUD update; 404 when
the mapping does not exist, success message otherwise.  No library count
is touched. -/
def update_mapping (db : DB) (mapping_id : Nat) (mapping_data : LibraryBookUpdate) :
    Except HTTPError String × DB :=
  let r := LibraryBookCRUD.update db mapping_id mapping_data
  match r.1 with
  | none => (Except.error ⟨404, "Library-book mapping not found"⟩, r.2)
  | some _ => (Except.ok "Library-book mapping updated successfully", r.2)

/-- Embedding of `LibraryBookService.delete_mapping`
(services/library_book_service.py): delegate to the CRUD delete; 404 when
the mapping does not exist, success message otherwise.  No library count
is touched. -/
def delete_mapping (db : DB) (mapping_id : Nat) : Except HTTPError String × DB :=
  let r := LibraryBookCRUD.delete db mapping_id
  if r.1 then
    (Except.ok "Library-book mapping deleted successfully", r.2)
  else
    (Except.error ⟨404, "Library-book mapping not found"⟩, r.2)

end LibraryBookService

namespace LibraryService

/-- Embedding of `LibraryService.delete_library` (services/library_service.py):
delegate to `LibraryCRUD.delete`; 404 when the library does not exist. -/
def delete_library (db : DB) (library_id : Nat) : Except HTTPError String × DB :=
  let r := LibraryCRUD.delete db library_id
  if r.1 then
    (Except.ok "Library deleted successfully", r.2)
  else
    (Except.error ⟨404, "Library not found"⟩, r.2)

end LibraryService

namespace BookService

/-- Embedding of `BookService.create_book` (services/book_service.py): call
`BookCRUD.create` directly — there is no isbn lookup before the insert —
and turn any exception raised by the insert into
`HTTPException(status_code=400, detail=str(e))`. -/
def create_book (db : DB) (book_data : BookCreate) :
    Except HTTPError (Nat × String) × DB :=
  let r := BookCRUD.create db book_data
  match r.1 with
  | Except.ok created => (Except.ok (created.id, "Book created successfully"), r.2)
  | Except.error e => (Except.error ⟨400, e⟩, r.2)

/-- Embedding of `BookService.delete_book` (services/book_service.py):
delegate to `BookCRUD.delete`; 404 when the book does not exist. -/
def delete_book (db : DB) (book_id : Nat) : Except HTTPError String × DB :=
  let r := BookCRUD.delete db book_id
  if r.1 then
    (Except.ok "Book deleted successfully", r.2)
  else
    (Except.error ⟨404, "Book not found"⟩, r.2)

end BookService

/-- One entry of the optional field-level error list in the uniform error
body (exception_handlers.py builds dicts with keys field, message, type). -/
structure ErrorField where
  field : String
  message : String
  type : String
  deriving Repr, DecidableEq

/-- The uniform JSON error body: always a detail field, plus the errors
list when one was supplied and non-empty. -/
structure ErrorResponse where
  detail : String
  errors : Option (List ErrorField)
  deriving Repr, DecidableEq

/-- Embedding of `get_error_response` (exception_handlers.py): the body
always carries detail; the errors key is added only when the passed list
is truthy, i.e. present and non-empty. -/
def get_error_response (detail : String) (errors : Option (List ErrorField)) :
    ErrorResponse :=
  { detail := detail,
    errors :=
      match errors with
      | some l => if l.isEmpty then none else some l
      | none => none }

/-- The duplicate-entry test of `integrity_error_handler`: Python
`"Duplicate entry" in error_message or "unique constraint" in
error_message.lower()`. -/
def isDuplicateMsg (error_message : String) : Bool :=
  containsSub error_message "Duplicate entry" ||
    containsInLower error_message "unique constraint"

/-- The foreign-key test of `integrity_error_handler`: Python
`"foreign key constraint" in error_message.lower() or "Cannot add or
update a child row" in error_message`. -/
def isForeignKeyMsg (error_message : String) : Bool :=
  containsInLower error_message "foreign key constraint" ||
    containsSub error_message "Cannot add or update a child row"

/-- The field-name extraction of `integrity_error_handler`: when the
message mentions for key, split on the key marker and take the text up to
the closing quote; otherwise the field stays unknown. -/
def extractField (error_message : String) : String :=
  if containsSub error_message "for key" then
    let parts := error_message.splitOn "for key \x27"
    if 1 < parts.length then
      ((parts.getD 1 "").splitOn "\x27").getD 0 ""
    else "unknown"
  else "unknown"

/-- Embedding of `integrity_error_handler` (exception_handlers.py): a
duplicate-entry message yields 409 Conflict with a unique-constraint error
entry, otherwise a foreign-key message yields 400 Bad Request with a
foreign-key error entry, and any other integrity error yields a generic
400.  Returns the HTTP status code with the JSON body. -/
def integrity_error_handler (error_message : String) : Nat × ErrorResponse :=
  if isDuplicateMsg error_message then
    (409, get_error_response "Duplicate entry - this record already exists"
      (some [{ field := extractField error_message,
               message := "This value already exists and must be unique",
               type := "unique_constraint_violation" }]))
  else if isForeignKeyMsg error_message then
    (400, get_error_response "Referenced record does not exist"
      (some [{ field := "foreign_key",
               message := "The referenced record does not exist",
               type := "foreign_key_constraint_violation" }]))
  else
    (400, get_error_response "Database integrity constraint violation" none)

/-- Read back the count column of the library row with the given id
(None when no such library exists). -/
def DB.getLibCount (db : DB) (library_id : Nat) : Option Int :=
  (db.libraries.find? (fun l => l.id == library_id)).map Library.count

/-- Number of mapping rows with status Active whose lib_id references the
given library: the quantity the spec says the derived counter should
track. -/
def activeMappingCount (db : DB) (library_id : Nat) : Nat :=
  (db.library_books.filter
    (fun m => m.lib_id == library_id && m.status == "Active")).length

/-- Referential integrity of a database state: every mapping row
references an existing library row and an existing book row. -/
def DB.refIntegrity (db : DB) : Prop :=
  ∀ m ∈ db.library_books,
    (∃ l ∈ db.libraries, l.id = m.lib_id) ∧ (∃ b ∈ db.books, b.id = m.book_id)

instance (db : DB) : Decidable db.refIntegrity := by
  unfold DB.refIntegrity
  infer_instance

/-- Combined filter predicate of `BookCRUD.get_multi`: a book matches the
given search/category/author/price filters (an inactive filter matches
everything). -/
def matchesFilters (search category author : Option String)
    (min_price max_price : Option Rat) (b : Book) : Bool :=
  (bif strTruthy search then BookCRUD.searchFilter (search.getD "") b else true) &&
  (bif strTruthy category then b.category == some (category.getD "") else true) &&
  (bif strTruthy author then icontains b.author (author.getD "") else true) &&
  (match min_price with
   | some m => decide (m ≤ b.price)
   | none => true) &&
  (match max_price with
   | some m => decide (b.price ≤ m)
   | none => true)

instance exceptDecEq {ε α : Type} [DecidableEq ε] [DecidableEq α] :
    DecidableEq (Except ε α) := fun x y =>
  match x, y with
  | Except.ok a, Except.ok b =>
    if h : a = b then isTrue (by rw [h])
    else isFalse (by intro hc; cases hc; exact h rfl)
  | Except.error a, Except.error b =>
    if h : a = b then isTrue (by rw [h])
    else isFalse (by intro hc; cases hc; exact h rfl)
  | Except.ok _, Except.error _ => isFalse (by intro hc; cases hc)
  | Except.error _, Except.ok _ => isFalse (by intro hc; cases hc)

/-- Sample library row with one book counted. -/
def lib1 : Library :=
  { id := 1, name := "Central", dept := some "CS", count := 1, status := "Active" }

/-- Sample library row with an empty count. -/
def lib0 : Library :=
  { id := 1, name := "Central", dept := some "CS", count := 0, status := "Active" }

/-- Sample book row. -/
def book1 : Book :=
  { id := 1, title := "Calculus", author := "Spivak", category := some "Math",
    price := 30, isbn := "9781111111111" }

/-- Sample mapping row linking `lib1` and `book1`. -/
def map1 : LibraryBook :=
  { id := 1, lib_id := 1, book_id := 1, status := "Active" }

/-- Sample database holding one library (count 1), one book, and the
mapping between them. -/
def dbOneMapping : DB :=
  { libraries := [lib1], books := [book1], library_books := [map1],
    next_book_id := 2, next_mapping_id := 2 }

/-- Sample database holding one library (count 0) and one book, with no
mapping. -/
def dbNoMapping : DB :=
  { libraries := [lib0], books := [book1], library_books := [],
    next_book_id := 2, next_mapping_id := 1 }

lemma find?_modifyFirst {α : Type} (p : α → Bool) (f : α → α) (l : List α) (a : α)
    (hf : ∀ x, p x = true → p (f x) = true) (h : l.find? p = some a) :
    (modifyFirst p f l).find? p = some (f a) := by
  induction l with
  | nil => simp at h
  | cons x xs ih =>
    by_cases hx : p x = true
    · rw [List.find?_cons_of_pos _ hx] at h
      cases h
      simp only [modifyFirst, if_pos hx]
      exact List.find?_cons_of_pos _ (hf _ hx)
    · rw [List.find?_cons_of_neg _ hx] at h
      simp only [modifyFirst, if_neg hx]
      rw [List.find?_cons_of_neg _ hx]
      exact ih h

/-- C9: LibraryCRUD.decrement_count preserves count ≥ 0 — when the
library's count is positive it decreases by exactly 1, when the count is 0
the database is left unchanged with the count still 0, and a nonnegative
count stays nonnegative. -/
theorem decrement_count_preserves_nonneg (db : DB) (library_id : Nat) (lib : Library)
    (h : LibraryCRUD.get_by_id db library_id = some lib) :
    (0 < lib.count →
      ((LibraryCRUD.decrement_count db library_id).2).getLibCount library_id =
        some (lib.count - 1)) ∧
    (lib.count = 0 → (LibraryCRUD.decrement_count db library_id).2 = db ∧
      ((LibraryCRUD.decrement_count db library_id).2).getLibCount library_id = some 0) ∧
    (0 ≤ lib.count → ∃ c,
      ((LibraryCRUD.decrement_count db library_id).2).getLibCount library_id = some c ∧
        0 ≤ c) := by
  have h' : db.libraries.find? (fun l => l.id == library_id) = some lib := h
  have hmod : ∀ (hpos : 0 < lib.count),
      (LibraryCRUD.decrement_count db library_id).2.getLibCount library_id =
        some (lib.count - 1) := by
    intro hpos
    have hfind := find?_modifyFirst (fun (l : Library) => l.id == library_id)
      (fun l => { l with count := l.count - 1 }) db.libraries lib
      (fun x hx => hx) h'
    simp only [LibraryCRUD.decrement_count, h', if_pos hpos, DB.getLibCount]
    rw [hfind]
    rfl
  have hzero : lib.count = 0 → (LibraryCRUD.decrement_count db library_id).2 = db := by
    intro h0
    have : ¬ 0 < lib.count := by omega
    simp only [LibraryCRUD.decrement_count, h', if_neg this]
  refine ⟨hmod, fun h0 => ⟨hzero h0, ?_⟩, fun hge => ?_⟩
  · rw [hzero h0]
    simp [DB.getLibCount, h', h0]
  · rcases lt_or_eq_of_le hge with hpos | heq
    · exact ⟨lib.count - 1, hmod hpos, by omega⟩
    · refine ⟨0, ?_, le_refl 0⟩
      rw [hzero heq.symm]
      simp [DB.getLibCount, h', heq.symm]

/-- C9 witness: on the sample database whose single library has count 1,
the theorem applies and yields count 0 after a decrement. -/
theorem decrement_count_preserves_nonneg_witness :
    ((LibraryCRUD.decrement_count dbOneMapping 1).2).getLibCount 1 = some 0 :=
  (decrement_count_preserves_nonneg dbOneMapping 1 lib1 (by decide)).1 (by decide)

/-- C10: when no mapping with the given id exists, update_mapping and
delete_mapping both fail with 404 and detail Library-book mapping not
found, and the database state is returned entirely unchanged. -/
theorem missing_mapping_update_delete_404 (db : DB) (mapping_id : Nat)
    (u : LibraryBookUpdate)
    (h : LibraryBookCRUD.get_by_id db mapping_id = none) :
    LibraryBookService.update_mapping db mapping_id u =
      (Except.error ⟨404, "Library-book mapping not found"⟩, db) ∧
    LibraryBookService.delete_mapping db mapping_id =
      (Except.error ⟨404, "Library-book mapping not found"⟩, db) := by
  have h' : db.library_books.find? (fun m => m.id == mapping_id) = none := h
  constructor
  · simp [LibraryBookService.update_mapping, LibraryBookCRUD.update, h']
  · simp [LibraryBookService.delete_mapping, LibraryBookCRUD.delete, h']

/-- C10 witness: on the sample database with a single mapping of id 1,
requesting id 5 hits the 404 path of both operations. -/
theorem missing_mapping_update_delete_404_witness :
    LibraryBookService.update_mapping dbOneMapping 5 {} =
      (Except.error ⟨404, "Library-book mapping not found"⟩, dbOneMapping) ∧
    LibraryBookService.delete_mapping dbOneMapping 5 =
      (Except.error ⟨404, "Library-book mapping not found"⟩, dbOneMapping) :=
  missing_mapping_update_delete_404 dbOneMapping 5 {} (by decide)

/-- C4: create_mapping verifies both parents before inserting — a missing
library yields 400 Library not found, a missing book yields 400 Book not
found, in both failure cases the database is returned unchanged (no
mapping created, no count changed), and a successful creation implies
both parents existed. -/
theorem create_mapping_checks_parents (db : DB) (m : LibraryBookCreate) :
    (LibraryCRUD.get_by_id db m.lib_id = none →
      LibraryBookService.create_mapping db m =
        (Except.error ⟨400, "Library not found"⟩, db)) ∧
    ((∃ l, LibraryCRUD.get_by_id db m.lib_id = some l) →
      BookCRUD.get_by_id db m.book_id = none →
      LibraryBookService.create_mapping db m =
        (Except.error ⟨400, "Book not found"⟩, db)) ∧
    (∀ r db', LibraryBookService.create_mapping db m = (Except.ok r, db') →
      (LibraryCRUD.get_by_id db m.lib_id).isSome ∧
      (BookCRUD.get_by_id db m.book_id).isSome) := by
  refine ⟨?_, ?_, ?_⟩
  · intro h
    simp [LibraryBookService.create_mapping, h]
  · rintro ⟨l, hl⟩ hb
    simp [LibraryBookService.create_mapping, hl, hb]
  · intro r db' h
    cases hl : LibraryCRUD.get_by_id db m.lib_id with
    | none => simp [LibraryBookService.create_mapping, hl] at h
    | some l =>
      cases hb : BookCRUD.get_by_id db m.book_id with
      | none => simp [LibraryBookService.create_mapping, hl, hb] at h
      | some b => simp

/-- C4 witness: on the sample database, a create request naming a missing
library id is refused with 400 Library not found, and one naming a
missing book id with 400 Book not found. -/
theorem create_mapping_checks_parents_witness :
    LibraryBookService.create_mapping dbNoMapping ⟨2, 1, "Active"⟩ =
      (Except.error ⟨400, "Library not found"⟩, dbNoMapping) ∧
    LibraryBookService.create_mapping dbNoMapping ⟨1, 2, "Active"⟩ =
      (Except.error ⟨400, "Book not found"⟩, dbNoMapping) :=
  ⟨(create_mapping_checks_parents dbNoMapping ⟨2, 1, "Active"⟩).1 (by decide),
   (create_mapping_checks_parents dbNoMapping ⟨1, 2, "Active"⟩).2.1
     ⟨lib0, by decide⟩ (by decide)⟩

/-- C3: when a mapping for the (lib_id, book_id) pair already exists in a
referentially-intact database, create_mapping fails with 409 Mapping
already exists and the database is returned unchanged — no row is
inserted and the library count is untouched. -/
theorem create_mapping_duplicate_409 (db : DB) (m : LibraryBookCreate)
    (hri : db.refIntegrity) (ex : LibraryBook)
    (hex : LibraryBookCRUD.get_by_library_and_book db m.lib_id m.book_id = some ex) :
    LibraryBookService.create_mapping db m =
      (Except.error ⟨409, "Mapping already exists"⟩, db) := by
  have hex' : db.library_books.find?
      (fun x => x.lib_id == m.lib_id && x.book_id == m.book_id) = some ex := hex
  have hmem : ex ∈ db.library_books := List.mem_of_find?_eq_some hex'
  have hp := List.find?_some hex'
  simp only [Bool.and_eq_true, beq_iff_eq] at hp
  obtain ⟨⟨l, hlmem, hlid⟩, b, hbmem, hbid⟩ := hri ex hmem
  have hl : (db.libraries.find? (fun x => x.id == m.lib_id)).isSome = true :=
    List.find?_isSome.mpr ⟨l, hlmem, by simp [hlid, hp.1]⟩
  have hb : (db.books.find? (fun x => x.id == m.book_id)).isSome = true :=
    List.find?_isSome.mpr ⟨b, hbmem, by simp [hbid, hp.2]⟩
  obtain ⟨l', hl'⟩ := Option.isSome_iff_exists.mp hl
  obtain ⟨b', hb'⟩ := Option.isSome_iff_exists.mp hb
  have hlg : LibraryCRUD.get_by_id db m.lib_id = some l' := hl'
  have hbg : BookCRUD.get_by_id db m.book_id = some b' := hb'
  simp [LibraryBookService.create_mapping, hlg, hbg, hex]

/-- C3 witness: on the sample database already holding the (1, 1) mapping,
creating it again yields 409 and leaves the database as it was. -/
theorem create_mapping_duplicate_409_witness :
    LibraryBookService.create_mapping dbOneMapping ⟨1, 1, "Active"⟩ =
      (Except.error ⟨409, "Mapping already exists"⟩, dbOneMapping) :=
  create_mapping_duplicate_409 dbOneMapping ⟨1, 1, "Active"⟩ (by decide) map1 (by decide)

/-- C1 at the failing input: deleting the sole mapping of a library whose
count is 1 succeeds and removes the mapping row, yet the library count
stays 1 — delete_mapping never invokes decrement_count, contrary to the
claimed decrement (and to the repository's own endpoint docstring and
integration test). -/
theorem delete_mapping_does_not_decrement :
    (LibraryBookService.delete_mapping dbOneMapping 1).1 =
      Except.ok "Library-book mapping deleted successfully" ∧
    ((LibraryBookService.delete_mapping dbOneMapping 1).2).library_books = [] ∧
    ((LibraryBookService.delete_mapping dbOneMapping 1).2).getLibCount 1 = some 1 := by
  decide

/-- C2 counterexample: starting from a library with count 0 and no
mappings, creating a mapping with status Inactive still increments the
count, so afterwards the count (1) differs from the number of Active
mappings (0). -/
theorem count_drifts_from_active_mappings :
    ((LibraryBookService.create_mapping dbNoMapping ⟨1, 1, "Inactive"⟩).2).getLibCount 1 =
      some 1 ∧
    activeMappingCount (LibraryBookService.create_mapping dbNoMapping ⟨1, 1, "Inactive"⟩).2 1 = 0 ∧
    ((LibraryBookService.create_mapping dbNoMapping ⟨1, 1, "Inactive"⟩).2).getLibCount 1 ≠
      some ((activeMappingCount
        (LibraryBookService.create_mapping dbNoMapping ⟨1, 1, "Inactive"⟩).2 1 : Nat) : Int) := by
  decide

/-- C2 as amended: the count is maintained imperatively, not enforced —
every successful create_mapping adds exactly 1 to the parent library
count regardless of the new mapping status, while update_mapping and
delete_mapping never touch the libraries table at all, so the count can
drift from the number of Active mappings. -/
theorem count_maintenance (db : DB) (m : LibraryBookCreate) (mid : Nat)
    (u : LibraryBookUpdate) :
    (∀ r, (LibraryBookService.create_mapping db m).1 = Except.ok r →
      ∃ c, db.getLibCount m.lib_id = some c ∧
        ((LibraryBookService.create_mapping db m).2).getLibCount m.lib_id = some (c + 1)) ∧
    ((LibraryBookService.update_mapping db mid u).2).libraries = db.libraries ∧
    ((LibraryBookService.delete_mapping db mid).2).libraries = db.libraries := by
  refine ⟨?_, ?_, ?_⟩
  · intro r h
    cases hl : LibraryCRUD.get_by_id db m.lib_id with
    | none => simp [LibraryBookService.create_mapping, hl] at h
    | some l =>
      cases hb : BookCRUD.get_by_id db m.book_id with
      | none => simp [LibraryBookService.create_mapping, hl, hb] at h
      | some b =>
        cases hex : LibraryBookCRUD.get_by_library_and_book db m.lib_id m.book_id with
        | some ex => simp [LibraryBookService.create_mapping, hl, hb, hex] at h
        | none =>
          have hl' : db.libraries.find? (fun x => x.id == m.lib_id) = some l := hl
          have hfind := find?_modifyFirst (fun (x : Library) => x.id == m.lib_id)
            (fun x => { x with count := x.count + 1 }) db.libraries l
            (fun x hx => hx) hl'
          refine ⟨l.count, by simp [DB.getLibCount, hl'], ?_⟩
          simp only [LibraryBookService.create_mapping, hl, hb, hex,
            LibraryBookCRUD.create, LibraryCRUD.increment_count]
          simp only [DB.getLibCount, hl', hfind]
          rfl
  · cases hf : db.library_books.find? (fun x => x.id == mid) with
    | none => simp [LibraryBookService.update_mapping, LibraryBookCRUD.update, hf]
    | some x => simp [LibraryBookService.update_mapping, LibraryBookCRUD.update, hf]
  · cases hf : db.library_books.find? (fun x => x.id == mid) with
    | none => simp [LibraryBookService.delete_mapping, LibraryBookCRUD.delete, hf]
    | some x => simp [LibraryBookService.delete_mapping, LibraryBookCRUD.delete, hf]

/-- C2 amended-claim witness: on the sample database the successful
creation of an Active mapping raises the count from 0 to 1. -/
theorem count_maintenance_witness :
    ∃ c, dbNoMapping.getLibCount 1 = some c ∧
      ((LibraryBookService.create_mapping dbNoMapping ⟨1, 1, "Active"⟩).2).getLibCount 1 =
        some (c + 1) :=
  (count_maintenance dbNoMapping ⟨1, 1, "Active"⟩ 1 {}).1
    (1, "Book linked to library successfully") (by decide)

/-- C5: in a referentially-intact database, deleting a library removes
every mapping row referencing it, and deleting a book removes every
mapping row referencing it; referential integrity is preserved, so no
mapping with a dangling lib_id or book_id remains afterwards. -/
theorem parent_delete_cascades (db : DB) (lid bid : Nat) (hri : db.refIntegrity) :
    (DB.refIntegrity (LibraryService.delete_library db lid).2 ∧
      ∀ m ∈ ((LibraryService.delete_library db lid).2).library_books, m.lib_id ≠ lid) ∧
    (DB.refIntegrity (BookService.delete_book db bid).2 ∧
      ∀ m ∈ ((BookService.delete_book db bid).2).library_books, m.book_id ≠ bid) := by
  constructor
  · cases hf : db.libraries.find? (fun l => l.id == lid) with
    | none =>
      have hdb : (LibraryService.delete_library db lid).2 = db := by
        simp [LibraryService.delete_library, LibraryCRUD.delete, hf]
      rw [hdb]
      refine ⟨hri, fun m hm hc => ?_⟩
      obtain ⟨⟨l, hl, hlid⟩, _⟩ := hri m hm
      rw [List.find?_eq_none] at hf
      exact hf l hl (by simp [hlid, hc])
    | some l0 =>
      have hdb : (LibraryService.delete_library db lid).2 =
          { db with libraries := db.libraries.eraseP (fun l => l.id == lid),
                    library_books :=
                      db.library_books.filter (fun m => !(m.lib_id == lid)) } := by
        simp [LibraryService.delete_library, LibraryCRUD.delete, hf]
      rw [hdb]
      constructor
      · intro m hm
        rw [List.mem_filter] at hm
        obtain ⟨hm, hml⟩ := hm
        simp only [Bool.not_eq_eq_eq_not, Bool.not_true, beq_eq_false_iff_ne, ne_eq] at hml
        obtain ⟨⟨l, hl, hlid⟩, b, hb, hbid⟩ := hri m hm
        refine ⟨⟨l, ?_, hlid⟩, b, hb, hbid⟩
        rw [List.mem_eraseP_of_neg (by simp [hlid, hml])]
        exact hl
      · intro m hm
        rw [List.mem_filter] at hm
        have := hm.2
        simp only [Bool.not_eq_eq_eq_not, Bool.not_true, beq_eq_false_iff_ne, ne_eq] at this
        exact this
  · cases hf : db.books.find? (fun b => b.id == bid) with
    | none =>
      have hdb : (BookService.delete_book db bid).2 = db := by
        simp [BookService.delete_book, BookCRUD.delete, hf]
      rw [hdb]
      refine ⟨hri, fun m hm hc => ?_⟩
      obtain ⟨_, b, hb, hbid⟩ := hri m hm
      rw [List.find?_eq_none] at hf
      exact hf b hb (by simp [hbid, hc])
    | some b0 =>
      have hdb : (BookService.delete_book db bid).2 =
          { db with books := db.books.eraseP (fun b => b.id == bid),
                    library_books :=
                      db.library_books.filter (fun m => !(m.book_id == bid)) } := by
        simp [BookService.delete_book, BookCRUD.delete, hf]
      rw [hdb]
      constructor
      · intro m hm
        rw [List.mem_filter] at hm
        obtain ⟨hm, hmb⟩ := hm
        simp only [Bool.not_eq_eq_eq_not, Bool.not_true, beq_eq_false_iff_ne, ne_eq] at hmb
        obtain ⟨⟨l, hl, hlid⟩, b, hb, hbid⟩ := hri m hm
        refine ⟨⟨l, hl, hlid⟩, b, ?_, hbid⟩
        rw [List.mem_eraseP_of_neg (by simp [hbid, hmb])]
        exact hb
      · intro m hm
        rw [List.mem_filter] at hm
        have := hm.2
        simp only [Bool.not_eq_eq_eq_not, Bool.not_true, beq_eq_false_iff_ne, ne_eq] at this
        exact this

/-- C5 witness: deleting library 1 from the sample database (which has one
mapping referencing it) leaves a referentially-intact state. -/
theorem parent_delete_cascades_witness :
    DB.refIntegrity (LibraryService.delete_library dbOneMapping 1).2 ∧
    DB.refIntegrity (BookService.delete_book dbOneMapping 1).2 :=
  ⟨(parent_delete_cascades dbOneMapping 1 1 (by decide)).1.1,
   (parent_delete_cascades dbOneMapping 1 1 (by decide)).2.1⟩

/-- C6 at the failing input: creating a book whose isbn equals an existing
book's isbn is rejected with HTTP 400 carrying the stringified database
IntegrityError — the rejection comes only from the unique constraint
caught by the blanket exception handler of create_book, there being no
application-level isbn lookup before the insert (and the repository's own
integration test expects 409 here); no new book row is inserted. -/
theorem duplicate_isbn_rejected_by_db_only :
    (BookService.create_book dbOneMapping
      { title := "Other", author := "Bob", category := none,
        price := 12, isbn := "9781111111111" }).1 =
      Except.error ⟨400,
        "(pymysql.err.IntegrityError) (1062, Duplicate entry 9781111111111 for key books.isbn)"⟩ ∧
    ((BookService.create_book dbOneMapping
      { title := "Other", author := "Bob", category := none,
        price := 12, isbn := "9781111111111" }).2).books = dbOneMapping.books := by
  decide

/-- C7: the integrity-error translation — a duplicate-entry message is
mapped to 409 Conflict, a foreign-key message (one the first check does
not classify as a duplicate) to 400 Bad Request, and in every case the
body has the uniform shape: a non-empty detail plus, when present, a
non-empty errors list whose entries carry field, message and type. -/
theorem integrity_error_translation (msg : String) :
    (isDuplicateMsg msg = true → integrity_error_handler msg =
      (409, get_error_response "Duplicate entry - this record already exists"
        (some [{ field := extractField msg,
                 message := "This value already exists and must be unique",
                 type := "unique_constraint_violation" }]))) ∧
    (isDuplicateMsg msg = false → isForeignKeyMsg msg = true →
      integrity_error_handler msg =
        (400, get_error_response "Referenced record does not exist"
          (some [{ field := "foreign_key",
                   message := "The referenced record does not exist",
                   type := "foreign_key_constraint_violation" }]))) ∧
    (integrity_error_handler msg).2.detail ≠ "" ∧
    (∀ l, (integrity_error_handler msg).2.errors = some l → l ≠ []) := by
  refine ⟨fun h => by simp [integrity_error_handler, h],
    fun h1 h2 => by simp [integrity_error_handler, h1, h2], ?_, ?_⟩
  · by_cases h1 : isDuplicateMsg msg = true
    · simp [integrity_error_handler, h1, get_error_response]
    · by_cases h2 : isForeignKeyMsg msg = true
      · simp [integrity_error_handler, h1, h2, get_error_response]
      · simp [integrity_error_handler, h1, h2, get_error_response]
  · intro l hl
    by_cases h1 : isDuplicateMsg msg = true
    · simp [integrity_error_handler, h1, get_error_response] at hl
      simp [← hl]
    · by_cases h2 : isForeignKeyMsg msg = true
      · simp [integrity_error_handler, h1, h2, get_error_response] at hl
        simp [← hl]
      · simp [integrity_error_handler, h1, h2, get_error_response] at hl

set_option maxRecDepth 8192 in
/-- C7 witness: a MySQL duplicate-entry message is translated to 409 and a
foreign-key message to 400, each with the uniform body. -/
theorem integrity_error_translation_witness :
    integrity_error_handler
        "(1062, Duplicate entry 9781111111111 for key books.isbn)" =
      (409, get_error_response "Duplicate entry - this record already exists"
        (some [{ field := extractField
                   "(1062, Duplicate entry 9781111111111 for key books.isbn)",
                 message := "This value already exists and must be unique",
                 type := "unique_constraint_violation" }])) ∧
    integrity_error_handler
        "(1452, Cannot add or update a child row: a foreign key constraint fails)" =
      (400, get_error_response "Referenced record does not exist"
        (some [{ field := "foreign_key",
                 message := "The referenced record does not exist",
                 type := "foreign_key_constraint_violation" }])) :=
  ⟨(integrity_error_translation
      "(1062, Duplicate entry 9781111111111 for key books.isbn)").1 (by decide),
   (integrity_error_translation
      "(1452, Cannot add or update a child row: a foreign key constraint fails)").2.1
     (by decide) (by decide)⟩

lemma buildQuery_eq_filter (db : DB) (se ca au : Option String) (mi ma : Option Rat) :
    BookCRUD.buildQuery db se ca au mi ma =
      db.books.filter (matchesFilters se ca au mi ma) := by
  unfold BookCRUD.buildQuery matchesFilters
  rcases mi with _ | m1 <;> rcases ma with _ | m2 <;>
    by_cases h1 : strTruthy se <;> by_cases h2 : strTruthy ca <;>
    by_cases h3 : strTruthy au <;>
    simp only [h1, h2, h3, if_true, if_false, Bool.false_eq_true, cond_true,
      cond_false, List.filter_filter, Bool.true_and, Bool.and_true] <;>
    (first
      | rfl
      | (rw [List.filter_true])
      | (apply List.filter_congr
         intro b _
         cases hs : BookCRUD.searchFilter (se.getD "") b <;>
           cases hc : b.category == some (ca.getD "") <;>
           cases ha : icontains b.author (au.getD "") <;>
           (try simp only [hs, hc, ha, Bool.true_and, Bool.false_and, Bool.and_true,
             Bool.and_false]) <;>
           first
             | rfl
             | (rw [Bool.and_comm])))

/-- C8: BookCRUD.get_multi returns the rows matching the combined
search/category/author/price filters with the first skip rows dropped and
at most limit rows kept, paired with the total number of matching rows
independent of skip and limit. -/
theorem get_multi_pagination (db : DB) (skip limit : Nat)
    (se ca au : Option String) (mi ma : Option Rat) :
    BookCRUD.get_multi db skip limit se ca au mi ma =
      (((db.books.filter (matchesFilters se ca au mi ma)).drop skip).take limit,
       (db.books.filter (matchesFilters se ca au mi ma)).length) := by
  simp [BookCRUD.get_multi, buildQuery_eq_filter]

end LibraryMgmt
